import Mathlib

/-!
PeerLearning rules engine: a verified shallow embedding.

Shallow embedding of the scoring/eligibility rules engine of the
peer-learning session manager (source file `part_002`, "Points Calculation
System"), together with the certificate-issuing step of the session-completion
handler (`part_004`, `handleCompleteSession`) and the join action
(`addAttendee`).

Modelling conventions:
* JavaScript numbers are modelled as `ℚ` (all values that arise in the rules
  engine are rationals: integer ratings and points, and averages of them).
* A possibly-`null`/`undefined` array is modelled as an `Option (List _)`.
* `parseFloat(x.toFixed(2))` is modelled as decimal rounding to two places,
  half away from zero for positive values (ECMA `toFixed` picks the larger
  candidate on ties), i.e. `round (x * 100) / 100` on `ℚ`.
* Fallible operations return `Except`.
-/

/-- A feedback entry: `{rating, behavior}` (the fields the rules engine
reads; `behavior` ranges over `"Good"`, `"Neutral"`, `"Bad"`). -/
structure Feedback where
  rating : ℚ
  behavior : String
deriving Repr, DecidableEq

/-- A session record, restricted to the fields the rules engine and the join
action read: `status`, `attendees` (possibly absent), `maxSeats` (optional),
`creatorId`. -/
structure Session where
  status : String
  attendees : Option (List String)
  maxSeats : Option Nat
  creatorId : String
deriving Repr, DecidableEq

/-- Translation of `sessionData.attendees?.length || 0` (part_002 line 23): length of the
attendee list, `0` when the field is absent/null (and `0` when empty, which
the `|| 0` also maps to `0`). -/
def Session.attendeeCount (s : Session) : Nat :=
  (s.attendees.map List.length).getD 0

/-- Embedding of `calculateSessionPoints` (part_002 lines 19–49): a step table on the
attendee count (1→2, 2→3, 3→4, 4→5, 5→6, 6→7, 7→8, ≥8→10, else 0),
plus 1 when `status === 'completed'`. -/
def calculateSessionPoints (sessionData : Session) : ℚ :=
  let attendeeCount := sessionData.attendeeCount
  let points : ℚ :=
    if attendeeCount = 1 then 2
    else if attendeeCount = 2 then 3
    else if attendeeCount = 3 then 4
    else if attendeeCount = 4 then 5
    else if attendeeCount = 5 then 6
    else if attendeeCount = 6 then 7
    else if attendeeCount = 7 then 8
    else if attendeeCount ≥ 8 then 10
    else 0
  if sessionData.status = "completed" then points + 1 else points

/-- Embedding of `calculateBonusPoints` (part_002 lines 51–71): `0` for a null or empty
list; otherwise +3 when the mean rating is ≥ 4.5, plus 1 per `"Good"`
behaviour. -/
def calculateBonusPoints (feedbacks : Option (List Feedback)) : ℚ :=
  match feedbacks with
  | none => 0
  | some fs =>
    if fs.length = 0 then 0
    else
      let averageRating : ℚ := (fs.map Feedback.rating).sum / fs.length
      let b : ℚ := if averageRating ≥ 45/10 then 3 else 0
      let goodBehaviors := (fs.filter (fun f => f.behavior == "Good")).length
      b + goodBehaviors

/-- Embedding of `calculateTotalPoints` (part_002 lines 73–77). -/
def calculateTotalPoints (sessionData : Session) (feedbacks : Option (List Feedback)) : ℚ :=
  calculateSessionPoints sessionData + calculateBonusPoints feedbacks

/-- The record returned by `calculateAverageFeedback`. -/
structure FeedbackStats where
  averageRating : ℚ
  totalFeedback : Nat
  goodCount : Nat
  neutralCount : Nat
  badCount : Nat
deriving Repr, DecidableEq

/-- Translation of `parseFloat(x.toFixed(2))` on a rational: round to two decimal places
(ties to the larger candidate, which is Mathlib's `round`). -/
def round2 (x : ℚ) : ℚ :=
  (round (x * 100) : ℤ) / 100

/-- Embedding of `calculateAverageFeedback` (part_002 lines 82–105): the all-zero record
for a null or empty list, otherwise the two-decimal-rounded mean rating
together with the length and the three behaviour counts. -/
def calculateAverageFeedback (feedbacks : Option (List Feedback)) : FeedbackStats :=
  match feedbacks with
  | none => ⟨0, 0, 0, 0, 0⟩
  | some fs =>
    if fs.length = 0 then ⟨0, 0, 0, 0, 0⟩
    else
      let averageRating : ℚ := (fs.map Feedback.rating).sum / fs.length
      { averageRating := round2 averageRating
        totalFeedback := fs.length
        goodCount := (fs.filter (fun f => f.behavior == "Good")).length
        neutralCount := (fs.filter (fun f => f.behavior == "Neutral")).length
        badCount := (fs.filter (fun f => f.behavior == "Bad")).length }

/-- An already-held badge record; `shouldAwardBadge` reads its `name` field. -/
structure UserBadge where
  name : String
deriving Repr, DecidableEq

/-- An entry of the badge threshold table. -/
structure BadgeThreshold where
  name : String
  points : ℚ
deriving Repr, DecidableEq

/-- The `badgeThresholds` table of `shouldAwardBadge` (part_002 lines
111–116). -/
def badgeThresholds : List BadgeThreshold :=
  [⟨"⭐ Beginner Helper", 5⟩,
   ⟨"🎓 Peer Mentor", 20⟩,
   ⟨"🔥 Super Helper", 50⟩,
   ⟨"🏆 Champion Mentor", 100⟩]

/-- Embedding of `shouldAwardBadge` (part_002 lines 110–127): the names of the threshold
badges whose threshold is reached and which are not already held (a for-loop
pushing names, i.e. `map name ∘ filter cond` in table order). -/
def shouldAwardBadge (userPoints : ℚ) (userBadges : List UserBadge) : List String :=
  (badgeThresholds.filter
    (fun badge =>
      decide (userPoints ≥ badge.points) &&
      !(userBadges.any (fun b => b.name == badge.name)))).map BadgeThreshold.name

/-- The record returned by `checkCertificateEligibility`. -/
structure Eligibility where
  peerMentor : Bool
  outstandingHelper : Bool
deriving Repr, DecidableEq

/-- Embedding of `checkCertificateEligibility` (part_002 lines 132–140): `peerMentor` when
the session is completed with a nonempty attendee list (`attendees?.length > 0`
is `false` when the field is absent), `outstandingHelper` when the aggregate's
(rounded) average rating is ≥ 4.5 and `goodCount > badCount`. -/
def checkCertificateEligibility (sessionData : Session)
    (feedbacks : Option (List Feedback)) : Eligibility :=
  let feedback := calculateAverageFeedback feedbacks
  { peerMentor :=
      (sessionData.status == "completed") && decide (0 < sessionData.attendeeCount)
    outstandingHelper :=
      decide (feedback.averageRating ≥ 45/10) &&
      decide (feedback.goodCount > feedback.badCount) }

/-- The step table as the specification words it (a refinement-side
definition, to be compared with the inline `if`-chain of
`calculateSessionPoints`): 1→2, 2→3, 3→4, 4→5, 5→6, 6→7, 7→8, ≥8→10,
0→0. -/
def specStepTable : Nat → ℚ
  | 0 => 0
  | 1 => 2
  | 2 => 3
  | 3 => 4
  | 4 => 5
  | 5 => 6
  | 6 => 7
  | 7 => 8
  | _ + 8 => 10

/-- The certificate record built by `handleCompleteSession` (part_004 lines
746–755), restricted to the fields the completion logic computes. -/
structure Certificate where
  certificateType : String
  averageRating : ℚ
deriving Repr, DecidableEq

/-- The certificate-issuing step of `handleCompleteSession` (part_004 lines
744–761).  The source reads the variable `avgRating` at lines 752–753, inside
the `if (eligibility.peerMentor)` block, but the only declaration of
`avgRating` in scope is the `const` at line 759, *after* that block: a read of
a `const` binding before its initializer has run throws a `ReferenceError`
(temporal dead zone).  We model the binding environment at the read site
explicitly: `avgRatingAtLine752` is `none` because the initializer at line 759
has not yet executed, and reading an uninitialized binding is
`Except.error`. -/
def completionCertificateStep (sessionData : Session)
    (allFeedbacks : Option (List Feedback)) : Except String (Option Certificate) :=
  let eligibility := checkCertificateEligibility sessionData allFeedbacks
  let avgRatingAtLine752 : Option ℚ := none
  if eligibility.peerMentor then
    match avgRatingAtLine752 with
    | none => Except.error "ReferenceError: Cannot access avgRating before initialization"
    | some avgRating =>
        Except.ok (some
          { certificateType :=
              if avgRating ≥ 45/10 then "outstanding-helper" else "peer-mentor"
            averageRating := avgRating })
  else
    Except.ok none

/-- The typed failures of the join action. -/
inductive JoinError where
  | CapacityError
  | AlreadyJoinedError
deriving Repr, DecidableEq

/-- Modelled from the spec: the backend handler behind
`sessionAPI.addAttendee` (`POST /sessions/:id/attendees`) is not part of this
repository — the frontend (part_006 lines 165–173, `database.js` lines 16–28)
only forwards the request and re-throws errors.  Spec §4.4: "fails with
`CapacityError` when `maxSeats` is set and `attendees.length >= maxSeats`,
unless the user is the creator.  Fails with `AlreadyJoinedError` when `userId`
already in `attendees`.  Succeeds otherwise, appending `userId`." -/
def addAttendee (session : Session) (userId : String) : Except JoinError Session :=
  let atts := session.attendees.getD []
  if (match session.maxSeats with
      | some m => decide (atts.length ≥ m)
      | none => false) && !(userId == session.creatorId) then
    Except.error JoinError.CapacityError
  else if atts.contains userId then
    Except.error JoinError.AlreadyJoinedError
  else
    Except.ok { session with attendees := some (atts ++ [userId]) }

/-! Theorems. -/

/-- Helper: the inline `if`-chain of `calculateSessionPoints` agrees with the
specification's step table. -/
theorem stepChain_eq_specStepTable (n : Nat) :
    (if n = 1 then (2:ℚ) else if n = 2 then 3 else if n = 3 then 4
     else if n = 4 then 5 else if n = 5 then 6 else if n = 6 then 7
     else if n = 7 then 8 else if n ≥ 8 then 10 else 0) = specStepTable n := by
  rcases Nat.lt_or_ge n 8 with h | h
  · interval_cases n <;> rfl
  · obtain ⟨m, rfl⟩ : ∃ m, n = m + 8 := ⟨n - 8, by omega⟩
    have h10 : specStepTable (m + 8) = 10 := rfl
    rw [h10]
    split_ifs <;> first | rfl | omega

/-- Helper: `calculateSessionPoints` decomposes as step table plus completion
bonus. -/
theorem calculateSessionPoints_eq (s : Session) :
    calculateSessionPoints s =
      specStepTable s.attendeeCount + (if s.status = "completed" then 1 else 0) := by
  simp only [calculateSessionPoints, stepChain_eq_specStepTable]
  split_ifs <;> ring

/-- C1: `calculateSessionPoints` is the fixed step table on the attendee count
(1→2, 2→3, 3→4, 4→5, 5→6, 6→7, 7→8, ≥8→10, 0→0), plus 1 exactly when the
status is `completed`; a completed session with 5 attendees yields 7. -/
theorem calculateSessionPoints_table_spec :
    (∀ s : Session,
      calculateSessionPoints s =
        (match s.attendeeCount with
          | 0 => 0 | 1 => 2 | 2 => 3 | 3 => 4 | 4 => 5 | 5 => 6 | 6 => 7 | 7 => 8
          | _ + 8 => 10)
        + (if s.status = "completed" then 1 else 0)) ∧
    calculateSessionPoints ⟨"completed", some ["a", "b", "c", "d", "e"], none, "c0"⟩ = 7 := by
  constructor
  · intro s
    exact calculateSessionPoints_eq s
  · rw [calculateSessionPoints_eq]
    norm_num [Session.attendeeCount, specStepTable]

/-- Helper: the specification step table is monotone. -/
theorem specStepTable_monotone : Monotone specStepTable := by
  apply monotone_nat_of_le_succ
  intro n
  rcases Nat.lt_or_ge n 8 with h | h
  · interval_cases n <;> norm_num [specStepTable]
  · obtain ⟨m, rfl⟩ : ∃ m, n = m + 8 := ⟨n - 8, by omega⟩
    have h1 : specStepTable (m + 8) = 10 := rfl
    have h2 : specStepTable (m + 8 + 1) = 10 := rfl
    rw [h1, h2]

/-- C9: `calculateSessionPoints` is monotone non-decreasing in the attendee
count, for any fixed status (and other fields). -/
theorem calculateSessionPoints_monotone (s : Session) (l l' : List String)
    (h : l.length ≤ l'.length) :
    calculateSessionPoints { s with attendees := some l } ≤
      calculateSessionPoints { s with attendees := some l' } := by
  rw [calculateSessionPoints_eq, calculateSessionPoints_eq]
  have hc : ∀ xs : List String,
      Session.attendeeCount { s with attendees := some xs } = xs.length := by
    intro xs; rfl
  rw [hc, hc]
  exact add_le_add_right (specStepTable_monotone h) _

/-- Witness for C9 at a concrete instance: one attendee versus two, completed
status. -/
theorem calculateSessionPoints_monotone_witness :
    calculateSessionPoints ⟨"completed", some ["a"], none, "c"⟩ ≤
      calculateSessionPoints ⟨"completed", some ["a", "b"], none, "c"⟩ :=
  calculateSessionPoints_monotone ⟨"completed", none, none, "c"⟩ ["a"] ["a", "b"]
    (by decide)

/-- C2: `calculateBonusPoints` returns 0 on the empty list, and otherwise 3
when the mean rating is at least 4.5 (else 0) plus 1 per `"Good"` behaviour;
`[{rating 5, Good}, {rating 4, Good}]` yields 5. -/
theorem calculateBonusPoints_spec :
    (∀ fs : List Feedback,
      calculateBonusPoints (some fs) =
        if fs = [] then 0
        else (if ((fs.map Feedback.rating).sum / fs.length : ℚ) ≥ 45/10 then 3 else 0)
             + (fs.countP (fun f => f.behavior == "Good") : ℚ)) ∧
    calculateBonusPoints (some []) = 0 ∧
    calculateBonusPoints (some [⟨5, "Good"⟩, ⟨4, "Good"⟩]) = 5 := by
  refine ⟨fun fs => ?_, rfl, ?_⟩
  · simp only [calculateBonusPoints, List.length_eq_zero, List.countP_eq_length_filter]
  · norm_num [calculateBonusPoints, List.filter]

/-- C7: `calculateAverageFeedback` returns the two-decimal-rounded mean rating
(0 for the empty list), the list length, and the `"Good"`/`"Neutral"`/`"Bad"`
behaviour counts; the empty (or absent) list yields the all-zero record.  The
embedding is a pure function of the list, so the input is never mutated. -/
theorem calculateAverageFeedback_spec :
    (∀ fs : List Feedback,
      calculateAverageFeedback (some fs) =
        { averageRating := if fs = [] then 0
            else round2 ((fs.map Feedback.rating).sum / fs.length)
          totalFeedback := fs.length
          goodCount := fs.countP (fun f => f.behavior == "Good")
          neutralCount := fs.countP (fun f => f.behavior == "Neutral")
          badCount := fs.countP (fun f => f.behavior == "Bad") }) ∧
    calculateAverageFeedback (some []) = ⟨0, 0, 0, 0, 0⟩ := by
  refine ⟨fun fs => ?_, rfl⟩
  cases fs with
  | nil => rfl
  | cons a l =>
      simp [calculateAverageFeedback, List.countP_eq_length_filter]

/-- C10: the rules engine is total on missing containers: an absent attendee
list behaves like the empty one, and a null feedback list yields bonus 0 and
the all-zero aggregate. -/
theorem rules_total_on_missing_containers :
    (∀ (st : String) (ms : Option Nat) (cr : String),
      calculateSessionPoints ⟨st, none, ms, cr⟩ =
        calculateSessionPoints ⟨st, some [], ms, cr⟩) ∧
    calculateBonusPoints none = 0 ∧
    calculateAverageFeedback none = ⟨0, 0, 0, 0, 0⟩ :=
  ⟨fun _ _ _ => rfl, rfl, rfl⟩

/-- Helper: the source's badge filter over any threshold table agrees with the
name/points-pair description of the specification (membership of the badge's
name in the held names, threshold at most the points total). -/
theorem award_filter_pairs (p : ℚ) (held : List UserBadge) (ts : List BadgeThreshold) :
    ((ts.filter (fun badge =>
        decide (p ≥ badge.points) &&
        !(held.any (fun b => b.name == badge.name)))).map BadgeThreshold.name)
    = (((ts.map (fun t => (t.name, t.points))).filter
        (fun b => decide (b.2 ≤ p) && decide (b.1 ∉ held.map UserBadge.name))).map
        Prod.fst) := by
  induction ts with
  | nil => rfl
  | cons t ts ih =>
      have hc : (decide (p ≥ t.points) && !(held.any (fun b => b.name == t.name)))
          = (decide (t.points ≤ p) && decide (t.name ∉ held.map UserBadge.name)) := by
        rw [Bool.eq_iff_iff]
        simp [List.any_eq_true, List.mem_map]
      simp only [List.map_cons, List.filter_cons, hc]
      split
      · simp only [List.map_cons, ih]
      · exact ih

/-- C5: `shouldAwardBadge` returns exactly the badges of the threshold table
(Beginner Helper at 5, Peer Mentor at 20, Super Helper at 50, Champion Mentor
at 100) whose threshold is at most the points total and whose name is not
among the held names; `shouldAwardBadge 5 []` returns just the Beginner Helper
badge. -/
theorem shouldAwardBadge_table_spec :
    (∀ (p : ℚ) (held : List UserBadge),
      shouldAwardBadge p held =
        (([("⭐ Beginner Helper", (5:ℚ)), ("🎓 Peer Mentor", 20),
           ("🔥 Super Helper", 50), ("🏆 Champion Mentor", 100)].filter
          (fun b => decide (b.2 ≤ p) && decide (b.1 ∉ held.map UserBadge.name))).map
          Prod.fst)) ∧
    shouldAwardBadge 5 [] = ["⭐ Beginner Helper"] := by
  constructor
  · intro p held
    have h : ([("⭐ Beginner Helper", (5:ℚ)), ("🎓 Peer Mentor", 20),
           ("🔥 Super Helper", 50), ("🏆 Champion Mentor", 100)])
        = badgeThresholds.map (fun t => (t.name, t.points)) := rfl
    rw [h, shouldAwardBadge, award_filter_pairs]
  · norm_num [shouldAwardBadge, badgeThresholds]

/-- C6: `shouldAwardBadge` is idempotent in the held set: adding the names a
first call returns to the held list makes a second call with the same points
total return the empty list; in particular with the Beginner Helper badge
already held, 5 points award nothing. -/
theorem shouldAwardBadge_idempotent :
    (∀ (p : ℚ) (held : List UserBadge),
      shouldAwardBadge p (held ++ (shouldAwardBadge p held).map UserBadge.mk) = []) ∧
    shouldAwardBadge 5 [UserBadge.mk "⭐ Beginner Helper"] = [] := by
  constructor
  · intro p held
    unfold shouldAwardBadge
    rw [List.map_eq_nil_iff, List.filter_eq_nil_iff]
    intro b hb
    simp only [Bool.and_eq_true, Bool.not_eq_true', decide_eq_true_eq, not_and]
    intro hp
    rw [Bool.not_eq_false]
    rw [List.any_append]
    rcases hm : held.any (fun x => x.name == b.name) with _ | _
    · rw [Bool.false_or]
      have hbmem : b ∈ badgeThresholds.filter
          (fun badge => decide (p ≥ badge.points) &&
            !(held.any fun x => x.name == badge.name)) :=
        List.mem_filter.mpr ⟨hb, by simp [hp, hm]⟩
      simp only [List.any_eq_true, List.mem_map]
      exact ⟨UserBadge.mk b.name, ⟨b.name, ⟨b, hbmem, rfl⟩, rfl⟩, by simp⟩
    · rw [Bool.true_or]
  · norm_num [shouldAwardBadge, badgeThresholds]

/-- Helper: the feedback aggregate of 51 rating-4 and 50 rating-5 `"Good"`
entries: the raw mean is 454/101 ≈ 4.495, which rounds up to 4.5. -/
theorem c3_stats :
    calculateAverageFeedback
      (some (List.replicate 51 (⟨4, "Good"⟩:Feedback) ++
        List.replicate 50 (⟨5, "Good"⟩:Feedback)))
      = ⟨9/2, 101, 101, 0, 0⟩ := by
  have h1 : ((List.replicate 51 (⟨4, "Good"⟩:Feedback) ++
      List.replicate 50 (⟨5, "Good"⟩:Feedback)).map Feedback.rating).sum = 454 := by
    simp [List.sum_replicate]
    norm_num
  have h2 : (List.replicate 51 (⟨4, "Good"⟩:Feedback) ++
      List.replicate 50 (⟨5, "Good"⟩:Feedback)).length = 101 := by simp
  have h5 : round2 ((454:ℚ)/101) = 9/2 := by
    rw [round2, round_eq]
    norm_num
  simp only [calculateAverageFeedback, h2]
  rw [if_neg (by norm_num)]
  rw [FeedbackStats.mk.injEq]
  refine ⟨?_, rfl, ?_, ?_, ?_⟩
  · rw [h1]
    push_cast
    exact h5
  all_goals simp [List.filter_append, List.filter_replicate]

/-- Counterexample to C3 as stated: on 51 rating-4 and 50 rating-5 `"Good"`
feedbacks, `checkCertificateEligibility` sets `outstandingHelper`, although
the (unrounded) average rating of the list, 454/101, is strictly below 4.5 —
the code compares the aggregate's two-decimal-rounded average, not the raw
mean. -/
theorem checkCertificateEligibility_claim_counterexample :
    (checkCertificateEligibility ⟨"completed", some ["u1"], none, "c0"⟩
        (some (List.replicate 51 (⟨4, "Good"⟩:Feedback) ++
          List.replicate 50 (⟨5, "Good"⟩:Feedback)))).outstandingHelper = true ∧
    ¬((((List.replicate 51 (⟨4, "Good"⟩:Feedback) ++
          List.replicate 50 (⟨5, "Good"⟩:Feedback)).map Feedback.rating).sum /
        ((List.replicate 51 (⟨4, "Good"⟩:Feedback) ++
          List.replicate 50 (⟨5, "Good"⟩:Feedback)).length : ℚ)) ≥ 45/10) := by
  have h1 : ((List.replicate 51 (⟨4, "Good"⟩:Feedback) ++
      List.replicate 50 (⟨5, "Good"⟩:Feedback)).map Feedback.rating).sum = 454 := by
    simp [List.sum_replicate]
    norm_num
  have h2 : (List.replicate 51 (⟨4, "Good"⟩:Feedback) ++
      List.replicate 50 (⟨5, "Good"⟩:Feedback)).length = 101 := by simp
  constructor
  · simp only [checkCertificateEligibility, c3_stats]
    norm_num
  · rw [h1, h2]
    push_cast
    norm_num

/-- C3 (amended): `peerMentor` holds exactly for a completed session with a
positive attendee count, and `outstandingHelper` holds exactly when the
*two-decimal-rounded* average rating is at least 4.5 and the `"Good"` count
strictly exceeds the `"Bad"` count. -/
theorem checkCertificateEligibility_amended :
    ∀ (s : Session) (fs : List Feedback),
      ((checkCertificateEligibility s (some fs)).peerMentor = true ↔
        (s.status = "completed" ∧ 0 < s.attendeeCount)) ∧
      ((checkCertificateEligibility s (some fs)).outstandingHelper = true ↔
        (round2 ((fs.map Feedback.rating).sum / fs.length) ≥ 45/10 ∧
          fs.countP (fun f => f.behavior == "Good") >
            fs.countP (fun f => f.behavior == "Bad"))) := by
  intro s fs
  constructor
  · simp [checkCertificateEligibility, Bool.and_eq_true, beq_iff_eq, decide_eq_true_eq]
  · cases fs with
    | nil =>
        simp [checkCertificateEligibility, calculateAverageFeedback, round2]
    | cons a l =>
        simp only [checkCertificateEligibility, calculateAverageFeedback]
        rw [if_neg (by simp)]
        simp [Bool.and_eq_true, decide_eq_true_eq, List.countP_eq_length_filter]

/-- C4 (code bug): on the specification's own example — a completed session
with 3 attendees and three `"Good"` feedbacks averaging 14/3 ≥ 4.5 — the
certificate-issuing step of `handleCompleteSession` does not issue an
`outstanding-helper` certificate: it aborts with a `ReferenceError`, because
`avgRating` is read (part_004 lines 752–753) before its `const` declaration
(line 759) has executed. -/
theorem completionCertificateStep_referenceError :
    completionCertificateStep ⟨"completed", some ["a", "b", "c"], none, "creator"⟩
        (some [⟨5, "Good"⟩, ⟨5, "Good"⟩, ⟨4, "Good"⟩]) =
      Except.error "ReferenceError: Cannot access avgRating before initialization" := by
  rfl

/-- C8 (modelled from the spec, the backend join handler not being part of
this repository): `addAttendee` fails with `CapacityError` when `maxSeats` is
set, the roster is full and the joiner is not the creator; otherwise it fails
with `AlreadyJoinedError` when the user is already on the roster; otherwise it
succeeds, appending the user. -/
theorem addAttendee_spec :
    ∀ (s : Session) (u : String),
      (∀ m : Nat, s.maxSeats = some m → m ≤ (s.attendees.getD []).length →
        u ≠ s.creatorId → addAttendee s u = Except.error JoinError.CapacityError) ∧
      ((∀ m : Nat, s.maxSeats = some m → (s.attendees.getD []).length < m) ∨ u = s.creatorId →
        u ∈ s.attendees.getD [] → addAttendee s u = Except.error JoinError.AlreadyJoinedError) ∧
      ((∀ m : Nat, s.maxSeats = some m → (s.attendees.getD []).length < m) ∨ u = s.creatorId →
        u ∉ s.attendees.getD [] →
        addAttendee s u = Except.ok { s with attendees := some (s.attendees.getD [] ++ [u]) }) := by
  intro s u
  have hcondOf : ∀ (h : (∀ m : Nat, s.maxSeats = some m →
      (s.attendees.getD []).length < m) ∨ u = s.creatorId),
      ((match s.maxSeats with
        | some m => decide ((s.attendees.getD []).length ≥ m)
        | none => false) && !(u == s.creatorId)) = false := by
    intro h
    rcases h with hlt | hcr
    · cases hms : s.maxSeats with
      | none => simp
      | some m =>
          have h2 : ¬ ((s.attendees.getD []).length ≥ m) := Nat.not_le.mpr (hlt m hms)
          simp [h2]
    · simp [hcr]
  refine ⟨?_, ?_, ?_⟩
  · intro m hm hlen hcr
    simp [addAttendee, hm, hlen, hcr]
  · intro hcap hmem
    simp [addAttendee, hcondOf hcap, hmem]
  · intro hcap hmem
    simp [addAttendee, hcondOf hcap, hmem]

/-- Witness for C8 at the specification's test: a session with `maxSeats = 1`
already holding one non-creator attendee rejects a second non-creator join
with `CapacityError`. -/
theorem addAttendee_spec_witness :
    addAttendee ⟨"scheduled", some ["a"], some 1, "cr"⟩ "b" =
      Except.error JoinError.CapacityError :=
  (addAttendee_spec ⟨"scheduled", some ["a"], some 1, "cr"⟩ "b").1 1 rfl
    (by decide) (by decide)
